import Mathlib

set_option maxRecDepth 100000

/-!
Shallow embedding of the transcription-acquisition pipeline of the
ai-blog-article-generator repository (src/blog_generator/views.py).

External collaborators (the YouTube caption service, the media-download
tool, the Whisper model, the Gemini client, the Django cache and the
filesystem) are modelled as explicit inputs: oracles describing the
outcome of each external call, an association-list cache, and a list of
existing file paths.  Pure library helpers used by the source
(urllib.parse.urlparse, urllib.parse.parse_qs, hashlib.sha256, str.strip,
str.join) are embedded as executable Lean functions over Nat / String.
-/

namespace BlogGen

/-! ### Cache store (django.core.cache: get / set)

The Django cache maps string keys to values; `set` overwrites and `get`
returns the stored value or None.  We model the store as an association
list holding the unexpired entries (TTL expiry is abstracted away: every
entry present is unexpired).  `cacheSet` conses the new binding; lookup
finds the most recent one, matching overwrite semantics. -/

def cacheGet {α : Type} (c : List (String × α)) (k : String) : Option α :=
  (c.find? (fun e => e.1 == k)).map (fun e => e.2)

def cacheSet {α : Type} (c : List (String × α)) (k : String) (v : α) :
    List (String × α) :=
  (k, v) :: c

theorem cacheGet_cacheSet_same {α : Type} (c : List (String × α)) (k : String) (v : α) :
    cacheGet (cacheSet c k v) k = some v := by
  simp [cacheGet, cacheSet, List.find?]

theorem cacheSet_mem {α : Type} (c : List (String × α)) (k : String) (v : α)
    (p : String × α) (hp : p ∈ cacheSet c k v) : p = (k, v) ∨ p ∈ c := by
  simpa [cacheSet] using hp

/-! ### Python string helpers -/

/-- Bool test whether `needle` occurs as a contiguous substring of `hay`. -/
def listInfixOf (needle : List Char) : List Char → Bool
  | [] => needle.isEmpty
  | h :: rest => List.isPrefixOf needle (h :: rest) || listInfixOf needle rest

/-- Python's `needle in hay` on strings (substring containment). -/
def containsSubstr (hay needle : String) : Bool :=
  listInfixOf needle.toList hay.toList

/-- Python's `s.strip()`: remove leading and trailing whitespace. -/
def pyStrip (s : String) : String :=
  String.mk (((s.toList.dropWhile Char.isWhitespace).reverse.dropWhile
    Char.isWhitespace).reverse)

/-- Python's `s.strip("/")`: remove leading and trailing `/` characters. -/
def stripSlashes (s : String) : String :=
  String.mk (((s.toList.dropWhile (fun c => c == '/')).reverse.dropWhile
    (fun c => c == '/')).reverse)

/-! ### urllib.parse.urlparse (modelled)

Modelled from Python's `urllib.parse.urlparse`, restricted to the URL
shapes the source feeds it: an optional `scheme://` head, then
`netloc` up to the first `/`, `?` or `#`, then the path, then `?query`,
then `#fragment`.  A URL with no `scheme://` is treated as having an
empty netloc and being all path/query/fragment (as Python does for
inputs like `"example.com/x"`).  Percent-decoding and the
scheme-without-netloc form (`mailto:x`) are outside the shapes used. -/

structure ParsedUrl where
  scheme : String
  netloc : String
  path : String
  query : String
  fragment : String

/-- Split `scheme://rest`: returns `some (scheme, rest)` when the marker
`://` occurs, `none` otherwise (accumulator holds the reversed prefix). -/
def splitSchemeAux : List Char → List Char → Option (List Char × List Char)
  | acc, ':' :: '/' :: '/' :: rest => some (acc.reverse, rest)
  | acc, c :: cs => splitSchemeAux (c :: acc) cs
  | _, [] => none

/-- Split `path?query#fragment` into its three parts. -/
def splitPQF (l : List Char) : List Char × List Char × List Char :=
  let beforeFrag := l.takeWhile (fun c => !(c == '#'))
  let fragment := (l.dropWhile (fun c => !(c == '#'))).drop 1
  let path := beforeFrag.takeWhile (fun c => !(c == '?'))
  let query := (beforeFrag.dropWhile (fun c => !(c == '?'))).drop 1
  (path, query, fragment)

def urlparse (url : String) : ParsedUrl :=
  match splitSchemeAux [] url.toList with
  | some (scheme, rest) =>
    let netloc := rest.takeWhile (fun c => !(c == '/' || c == '?' || c == '#'))
    let rest2 := rest.dropWhile (fun c => !(c == '/' || c == '?' || c == '#'))
    let (path, query, fragment) := splitPQF rest2
    ⟨String.mk scheme, String.mk netloc, String.mk path, String.mk query,
      String.mk fragment⟩
  | none =>
    let (path, query, fragment) := splitPQF url.toList
    ⟨"", "", String.mk path, String.mk query, String.mk fragment⟩

/-! ### urllib.parse.parse_qs (modelled)

`parse_qs(q).get(key, [None])[0]` as used by the source: split the query
on `&`, split each pair at the first `=`, drop empty pairs, pairs with
no `=` and pairs with an empty value (keep_blank_values=False), and
return the first value bound to `key` (None when absent).
Percent/plus-decoding is not modelled (the identifiers involved contain
no escapes). -/

def splitOnCharAux (c : Char) : List Char → List Char → List (List Char)
  | acc, [] => [acc.reverse]
  | acc, x :: xs =>
    if x == c then acc.reverse :: splitOnCharAux c [] xs
    else splitOnCharAux c (x :: acc) xs

def parseQsPair (pair : List Char) : Option (String × String) :=
  if pair.isEmpty then none
  else
    let name := pair.takeWhile (fun c => !(c == '='))
    let rest := pair.dropWhile (fun c => !(c == '='))
    match rest with
    | [] => none
    | _ :: value =>
      if value.isEmpty then none else some (String.mk name, String.mk value)

def qsFirst (query : String) (key : String) : Option String :=
  ((((splitOnCharAux '&' [] query.toList).filterMap parseQsPair).filter
    (fun p => p.1 == key)).head?).map (fun p => p.2)

/-! ### extract_video_id (views.py lines 133-146) -/

def extract_video_id (url : String) : Option String :=
  let parsed := urlparse url
  if containsSubstr parsed.netloc "youtube" then qsFirst parsed.query "v"
  else if containsSubstr parsed.netloc "youtu.be" then
    some (stripSlashes parsed.path)
  else none

example : extract_video_id "https://www.youtube.com/watch?v=abc123" = some "abc123" := by
  decide

example : extract_video_id "https://youtu.be/abc123" = some "abc123" := by
  decide

example : extract_video_id "https://example.com/x" = none := by
  decide

example : extract_video_id "https://www.youtube.com/watch" = none := by
  decide

/-! ### UTF-8 encoding (Python str.encode()) -/

/-- UTF-8 encoding of a single Unicode code point, as a list of byte
values (Nat < 256). -/
def utf8EncodeCodepoint (c : Nat) : List Nat :=
  if c < 0x80 then [c]
  else if c < 0x800 then
    [0xC0 + c / 0x40, 0x80 + c % 0x40]
  else if c < 0x10000 then
    [0xE0 + c / 0x1000, 0x80 + (c / 0x40) % 0x40, 0x80 + c % 0x40]
  else
    [0xF0 + c / 0x40000, 0x80 + (c / 0x1000) % 0x40, 0x80 + (c / 0x40) % 0x40,
      0x80 + c % 0x40]

/-- Python's `s.encode()`: the UTF-8 byte sequence of a string. -/
def utf8Bytes (s : String) : List Nat :=
  s.toList.foldr (fun ch acc => utf8EncodeCodepoint ch.toNat ++ acc) []

/-! ### hashlib.sha256 (modelled)

An executable embedding of FIPS 180-4 SHA-256 over a list of byte
values, with 32-bit words represented as Nat reduced mod 2^32. -/

def w32 (n : Nat) : Nat := n % 4294967296

def rotr32 (k x : Nat) : Nat := w32 ((x >>> k) ||| (x <<< (32 - k)))

def shaCh (e f g : Nat) : Nat := (e &&& f) ^^^ ((e ^^^ 0xffffffff) &&& g)

def shaMaj (a b c : Nat) : Nat := (a &&& b) ^^^ (a &&& c) ^^^ (b &&& c)

def bigSigma0 (x : Nat) : Nat := rotr32 2 x ^^^ rotr32 13 x ^^^ rotr32 22 x

def bigSigma1 (x : Nat) : Nat := rotr32 6 x ^^^ rotr32 11 x ^^^ rotr32 25 x

def smallSigma0 (x : Nat) : Nat := rotr32 7 x ^^^ rotr32 18 x ^^^ (x >>> 3)

def smallSigma1 (x : Nat) : Nat := rotr32 17 x ^^^ rotr32 19 x ^^^ (x >>> 10)

def shaK : List Nat :=
  [1116352408, 1899447441, 3049323471, 3921009573, 961987163,
   1508970993, 2453635748, 2870763221, 3624381080, 310598401,
   607225278, 1426881987, 1925078388, 2162078206, 2614888103,
   3248222580, 3835390401, 4022224774, 264347078, 604807628,
   770255983, 1249150122, 1555081692, 1996064986, 2554220882,
   2821834349, 2952996808, 3210313671, 3336571891, 3584528711,
   113926993, 338241895, 666307205, 773529912, 1294757372,
   1396182291, 1695183700, 1986661051, 2177026350, 2456956037,
   2730485921, 2820302411, 3259730800, 3345764771, 3516065817,
   3600352804, 4094571909, 275423344, 430227734, 506948616,
   659060556, 883997877, 958139571, 1322822218, 1537002063,
   1747873779, 1955562222, 2024104815, 2227730452, 2361852424,
   2428436474, 2756734187, 3204031479, 3329325298]

def shaH0 : List Nat :=
  [1779033703, 3144134277, 1013904242, 2773480762,
   1359893119, 2600822924, 528734635, 1541459225]

/-- 64-bit big-endian byte encoding of a Nat (the message bit length). -/
def be64 (n : Nat) : List Nat :=
  [(n >>> 56) % 256, (n >>> 48) % 256, (n >>> 40) % 256, (n >>> 32) % 256,
   (n >>> 24) % 256, (n >>> 16) % 256, (n >>> 8) % 256, n % 256]

/-- SHA-256 padding: append 0x80, zeros to 56 mod 64, then the bit
length as 64-bit big-endian. -/
def sha256pad (msg : List Nat) : List Nat :=
  let padzeros := (119 - msg.length % 64) % 64
  msg ++ [128] ++ List.replicate padzeros 0 ++ be64 (msg.length * 8)

def chunksAux (size : Nat) : Nat → List Nat → List (List Nat)
  | 0, _ => []
  | _, [] => []
  | fuel + 1, l => l.take size :: chunksAux size fuel (l.drop size)

/-- Split a list into successive blocks of `size` elements. -/
def chunks (size : Nat) (l : List Nat) : List (List Nat) :=
  chunksAux size l.length l

/-- Big-endian 32-bit words from groups of four bytes. -/
def bytesToWordsAux : Nat → List Nat → List Nat
  | 0, _ => []
  | fuel + 1, b0 :: b1 :: b2 :: b3 :: rest =>
    (b0 * 0x1000000 + b1 * 0x10000 + b2 * 0x100 + b3) :: bytesToWordsAux fuel rest
  | _, _ => []

def bytesToWords (l : List Nat) : List Nat := bytesToWordsAux l.length l

/-- One step of the message-schedule extension: append
`σ1(w[t-2]) + w[t-7] + σ0(w[t-15]) + w[t-16]` mod 2^32. -/
def shaExtendStep (ws : List Nat) : List Nat :=
  let n := ws.length
  ws ++ [w32 (smallSigma1 (ws.getD (n - 2) 0) + ws.getD (n - 7) 0 +
    smallSigma0 (ws.getD (n - 15) 0) + ws.getD (n - 16) 0)]

/-- The 64-entry message schedule of one 16-word block. -/
def shaSchedule (block : List Nat) : List Nat :=
  (List.range 48).foldl (fun ws _ => shaExtendStep ws) block

/-- One round of the SHA-256 compression function on the working
variables `[a,b,c,d,e,f,g,h]`, given `(K[t], W[t])`. -/
def shaRound (st : List Nat) (kw : Nat × Nat) : List Nat :=
  match st with
  | [a, b, c, d, e, f, g, h] =>
    let t1 := w32 (h + bigSigma1 e + shaCh e f g + kw.1 + kw.2)
    let t2 := w32 (bigSigma0 a + shaMaj a b c)
    [w32 (t1 + t2), a, b, c, w32 (d + t1), e, f, g]
  | other => other

/-- Process one 64-byte block: run 64 rounds and add the result into the
running hash value. -/
def shaCompress (h : List Nat) (blockBytes : List Nat) : List Nat :=
  let ws := shaSchedule (bytesToWords blockBytes)
  let st := (shaK.zip ws).foldl shaRound h
  List.zipWith (fun x y => w32 (x + y)) h st

/-- The eight 32-bit hash words of a byte message. -/
def sha256Words (msg : List Nat) : List Nat :=
  (chunks 64 (sha256pad msg)).foldl shaCompress shaH0

def hexChar (n : Nat) : Char :=
  if n < 10 then Char.ofNat (48 + n) else Char.ofNat (87 + n)

def byteToHex (b : Nat) : List Char := [hexChar (b / 16), hexChar (b % 16)]

def wordToBytes (w : Nat) : List Nat :=
  [(w >>> 24) % 256, (w >>> 16) % 256, (w >>> 8) % 256, w % 256]

/-- Python's `hashlib.sha256(bytes).hexdigest()`. -/
def sha256hex (msg : List Nat) : String :=
  String.mk (((sha256Words msg).foldr (fun w acc => wordToBytes w ++ acc)
    []).foldr (fun b acc => byteToHex b ++ acc) [])

example :
    sha256hex (utf8Bytes "") =
      "e3b0c44298fc1c149afbf4c8996fb92427ae41e4649b934ca495991b7852b855" := by
  decide

example :
    sha256hex (utf8Bytes "abc") =
      "ba7816bf8f01cfea414140de5dae2223b00361a396177a9cb410ff61f20015ad" := by
  decide

/-! ### get_youtube_captions (views.py lines 207-242)

The youtube_transcript_api collaborator is modelled by two oracles.
`CaptionOutcome` is the outcome of the first `get_transcript` call:
success with a list of fragment texts, a NoTranscriptFound error, a
TranscriptsDisabled error, or any other exception.  `GeneratedOutcome`
describes the fallback path taken inside the NoTranscriptFound handler:
`available frags` means `list_transcripts` succeeded,
`find_generated_transcript` returned a truthy track and `fetch`
succeeded with those fragments; `unavailable` means the found track was
falsy (so the `if` body is skipped); `err` covers an exception raised
anywhere inside that inner `try`. -/

inductive CaptionOutcome where
  | ok (frags : List String)
  | noTranscriptFound
  | transcriptsDisabled
  | otherError (msg : String)

inductive GeneratedOutcome where
  | available (frags : List String)
  | unavailable
  | err (msg : String)

/-- `" ".join(texts).strip()` over the fragment texts. -/
def joinStrip (frags : List String) : String :=
  pyStrip (String.intercalate " " frags)

/-- views.py lines 207-242: every branch returns a string; the function
never raises (the final catch-all returns `""`). -/
def get_youtube_captions (api : CaptionOutcome) (gen : GeneratedOutcome) :
    String :=
  match api with
  | .ok frags => joinStrip frags
  | .noTranscriptFound =>
    match gen with
    | .available frags => joinStrip frags
    | .unavailable => ""
    | .err _ => ""
  | .transcriptsDisabled => ""
  | .otherError _ => ""

/-! ### download_audio (views.py lines 164-205)

`primary` is the outcome of the first `ydl.download` (the temporary
`.webm` for Whisper); `secondary` is the outcome of the development-mode
`.mp3` copy with the FFmpeg postprocessor; `tmpName` is the generated
`audio_{uuid}.webm` filename.  Both downloads sit inside one `try`, and
the `except` raises a RuntimeError with a fixed message. -/

def audioFailMsg : String :=
  "Audio download failed. Ensure FFmpeg is installed and on PATH."

def download_audio (debug : Bool) (primary secondary : Except String Unit)
    (tmpName : String) : Except String String :=
  match primary with
  | .error _ => .error audioFailMsg
  | .ok _ =>
    if debug then
      match secondary with
      | .error _ => .error audioFailMsg
      | .ok _ => .ok tmpName
    else .ok tmpName

/-! ### transcribe_whisper (views.py lines 244-256)

`raw` is the outcome of `whisper_model.transcribe`: the `result["text"]`
string, or an exception message.  The function strips the text and wraps
errors in a RuntimeError. -/

def transcribe_whisper (raw : Except String String) : Except String String :=
  match raw with
  | .ok t => .ok (pyStrip t)
  | .error e => .error ("Whisper transcription failed: " ++ e)

/-! ### get_transcriptions (views.py lines 258-304)

All external behaviour of one pipeline invocation is collected in
`PipelineEnv`.  The filesystem is a list of existing paths: a
successful primary download creates `tmpName`, `os.path.exists` is list
membership, and `os.remove` filters the path out.  `Effects` records
which of the three offloaded collaborator calls were started. -/

structure PipelineEnv where
  api : CaptionOutcome
  gen : GeneratedOutcome
  debug : Bool
  primaryDl : Except String Unit
  secondaryDl : Except String Unit
  tmpName : String
  whisperRaw : Except String String

structure Effects where
  captionsCalled : Bool
  downloadCalled : Bool
  whisperCalled : Bool

def noEffects : Effects := ⟨false, false, false⟩

/-- The transcript cache: key → (captions_text, whisper_text). -/
abbrev TCache := List (String × (String × String))

/-- Result of one `get_transcriptions` call: the returned pair or the
RuntimeError message, the cache after the call, the filesystem after the
call, and which collaborators were invoked. -/
structure PipelineResult where
  outcome : Except String (String × String)
  cache : TCache
  fs : List String
  effects : Effects

/-- Add a path to the filesystem (creating an existing path leaves the
set of paths unchanged). -/
def fsAdd (fs : List String) (p : String) : List String :=
  if p ∈ fs then fs else fs ++ [p]

/-- views.py lines 258-304.  Notes kept from the source:
* line 273 `if not video_id` treats both None and `""` as invalid;
* line 278 `if cached` is a tuple truthiness test, true for any stored
  pair, so a hit is exactly a present entry;
* lines 283-285 run captions and download concurrently; `gather`
  re-raises a download failure after both tasks ran;
* lines 289-294 delete the temporary file only on the fall-through path
  after line 287, i.e. only when `transcribe_whisper` returned;
* every raise inside the `try` is wrapped by line 304 into
  `RuntimeError("Fetching transcriptions failed: " + str(e))`. -/
def get_transcriptions (env : PipelineEnv) (cache : TCache) (fs : List String)
    (video_url : String) (lang : String) : PipelineResult :=
  let invalid : PipelineResult :=
    ⟨.error "Fetching transcriptions failed: Invalid YouTube URL", cache, fs,
      noEffects⟩
  match extract_video_id video_url with
  | none => invalid
  | some vid =>
    if vid = "" then invalid
    else
      let key := "transcriptions:" ++ vid ++ ":" ++ lang
      match cacheGet cache key with
      | some pair => ⟨.ok pair, cache, fs, noEffects⟩
      | none =>
        let captions_text := get_youtube_captions env.api env.gen
        let fs1 :=
          match env.primaryDl with
          | .ok _ => fsAdd fs env.tmpName
          | .error _ => fs
        match download_audio env.debug env.primaryDl env.secondaryDl
            env.tmpName with
        | .error e =>
          ⟨.error ("Fetching transcriptions failed: " ++ e), cache, fs1,
            ⟨true, true, false⟩⟩
        | .ok audio_file =>
          match transcribe_whisper env.whisperRaw with
          | .error e =>
            ⟨.error ("Fetching transcriptions failed: " ++ e), cache, fs1,
              ⟨true, true, true⟩⟩
          | .ok whisper_text =>
            let fs2 :=
              if audio_file ≠ "" ∧ audio_file ∈ fs1 then
                fs1.filter (fun f => f != audio_file)
              else fs1
            if captions_text = "" ∧ whisper_text = "" then
              ⟨.error
                  "Fetching transcriptions failed: Both captions and Whisper failed",
                cache, fs2, ⟨true, true, true⟩⟩
            else
              ⟨.ok (captions_text, whisper_text),
                cacheSet cache key (captions_text, whisper_text), fs2,
                ⟨true, true, true⟩⟩

/-! ### generate_blog_from_transcription (views.py lines 306-381)

The Gemini response object is modelled structurally:
`getattr(response, "candidates", [])` is the candidate list,
`getattr(candidate, "content", None)` an optional content,
`getattr(content, "parts", [])` a part list, and
`getattr(part, "text", "")` an optional text with default `""`.
The client call itself is an oracle `service : String → Except String
GenResponse` mapping the prompt to a response or a transport error.
(Lines 368-370 of the source re-check the candidate's content and parts
already validated on lines 361 and 366 against the same objects, so that
third raise cannot fire and is not a separate branch of the model.) -/

structure GenPart where
  text : Option String

structure GenContent where
  parts : List GenPart

structure GenCandidate where
  content : Option GenContent

structure GenResponse where
  candidates : List GenCandidate

/-- The f-string prompt of views.py lines 324-351, with
`{captions_text or '[EMPTY]'}` and `{whisper_text or '[EMPTY]'}`
substituted (Python `or` yields the literal marker exactly when the
string is empty). -/
def buildPrompt (captions_text whisper_text : String) : String :=
  "\n    You are a professional transcription editor and blog writer.\n    I have two transcripts of the same YouTube video:\n\n    --- Captions Transcript ---\n    " ++
  (if captions_text = "" then "[EMPTY]" else captions_text) ++
  "\n\n    --- Whisper Transcript ---\n    " ++
  (if whisper_text = "" then "[EMPTY]" else whisper_text) ++
  "\n\n    First you are a professional transcription editor.\n    Please merge these into one clean, perfect, accurate transcript.\n    - Fix mistakes\n    - remove repetitions\n    - ensure readability\n\n    Then you are a professional blog writer. \n    You always write clear, engaging, and well-structured articles.\n    Based on that merged transcript, write a comprehensive blog article.\n    - take input from the above transcript created\n    - Make it engaging, well-structured, and professional\n    - Do NOT mention YouTube or that it\u2019s a transcript or youtube video \n    - Write it like a properly polished blog post\n\n    Finally you do the following:\n    - You do not give the transcript in the output\n    - You only give blog generated as output\n    "

/-- views.py line 318: the article-cache key is `"blog:"` plus the
SHA-256 hexdigest of the UTF-8 encoding of `captions_text +
whisper_text`. -/
def blogKey (captions_text whisper_text : String) : String :=
  "blog:" ++ sha256hex (utf8Bytes (captions_text ++ whisper_text))

/-- The article cache: key → blog content. -/
abbrev ACache := List (String × String)

/-- Result of one `generate_blog_from_transcription` call: the returned
article or the RuntimeError message, the cache after the call, and the
list of prompts sent to the generative service. -/
structure GenerateResult where
  outcome : Except String String
  cache : ACache
  sent : List String

/-- The cache-miss branch of views.py lines 323-381: build the prompt,
call the service once, validate the response, cache and return.  Every
raise inside the `try` is wrapped by line 381 into
`RuntimeError("Gemini API request failed: " + str(e))`. -/
def generateOnMiss (service : String → Except String GenResponse)
    (cache : ACache) (key : String) (captions_text whisper_text : String) :
    GenerateResult :=
  let prompt := buildPrompt captions_text whisper_text
  match service prompt with
  | .error e => ⟨.error ("Gemini API request failed: " ++ e), cache, [prompt]⟩
  | .ok resp =>
    match resp.candidates with
    | [] =>
      ⟨.error "Gemini API request failed: Gemini API returned no valid content",
        cache, [prompt]⟩
    | cand :: _ =>
      match cand.content with
      | none =>
        ⟨.error
            "Gemini API request failed: Gemini API returned no valid content",
          cache, [prompt]⟩
      | some content =>
        match content.parts with
        | [] =>
          ⟨.error "Gemini API request failed: Gemini API returned empty parts",
            cache, [prompt]⟩
        | p :: ps =>
          let blog_content :=
            pyStrip (String.join ((p :: ps).map (fun q => q.text.getD "")))
          if blog_content = "" then
            ⟨.error
                "Gemini API request failed: Gemini API returned empty blog content",
              cache, [prompt]⟩
          else
            ⟨.ok blog_content, cacheSet cache key blog_content, [prompt]⟩

/-- views.py lines 306-381.  Line 320 `if cached_blog:` is a string
truthiness test: a present-but-empty cached string is treated as a miss
(such an entry is never written, since empty content raises before the
`cache.set`). -/
def generate_blog_from_transcription (service : String → Except String GenResponse)
    (cache : ACache) (captions_text whisper_text : String) : GenerateResult :=
  let key := blogKey captions_text whisper_text
  match cacheGet cache key with
  | some cached_blog =>
    if cached_blog = "" then
      generateOnMiss service cache key captions_text whisper_text
    else ⟨.ok cached_blog, cache, []⟩
  | none => generateOnMiss service cache key captions_text whisper_text

/-! ### Helper lemmas -/

theorem mem_fsAdd_self (fs : List String) (p : String) : p ∈ fsAdd fs p := by
  unfold fsAdd
  split
  · assumption
  · simp

theorem not_mem_filter_ne_self (l : List String) (p : String) :
    p ∉ l.filter (fun f => f != p) := by
  intro h
  have := List.of_mem_filter h
  simp at this

/-! ### Claims -/

/-- Claim C6: `extract_video_id` follows the host rules — a host
containing `"youtube"` yields the `v` query parameter (none when
absent), otherwise a host containing `"youtu.be"` yields the path with
surrounding slashes stripped, and any other host yields none; in
particular the three example URLs map to `"abc123"`, `"abc123"` and
none. -/
theorem C6_extract_video_id_host_rules :
    extract_video_id "https://www.youtube.com/watch?v=abc123" = some "abc123" ∧
    extract_video_id "https://youtu.be/abc123" = some "abc123" ∧
    extract_video_id "https://example.com/x" = none ∧
    extract_video_id "https://www.youtube.com/watch" = none ∧
    (∀ url, containsSubstr (urlparse url).netloc "youtube" = true →
      extract_video_id url = qsFirst (urlparse url).query "v") ∧
    (∀ url, containsSubstr (urlparse url).netloc "youtube" = false →
      containsSubstr (urlparse url).netloc "youtu.be" = true →
      extract_video_id url = some (stripSlashes (urlparse url).path)) ∧
    (∀ url, containsSubstr (urlparse url).netloc "youtube" = false →
      containsSubstr (urlparse url).netloc "youtu.be" = false →
      extract_video_id url = none) := by
  refine ⟨by decide, by decide, by decide, by decide, ?_, ?_, ?_⟩
  · intro url h
    simp [extract_video_id, h]
  · intro url h1 h2
    simp [extract_video_id, h1, h2]
  · intro url h1 h2
    simp [extract_video_id, h1, h2]

/-- Witness for C6 at a concrete input with the hypotheses discharged. -/
theorem C6_witness :
    containsSubstr (urlparse "https://m.youtube.com/watch?v=zz42").netloc
      "youtube" = true ∧
    extract_video_id "https://m.youtube.com/watch?v=zz42" =
      qsFirst (urlparse "https://m.youtube.com/watch?v=zz42").query "v" :=
  ⟨by decide,
    C6_extract_video_id_host_rules.2.2.2.2.1 "https://m.youtube.com/watch?v=zz42"
      (by decide)⟩

/-- Claim C4: `get_youtube_captions` never raises — every outcome of the
caption service maps to a string: the requested-language transcript
missing (with the generated-track fallback unavailable or failing),
transcripts disabled, and any other error all yield `""`, while success
yields the fragments joined with single spaces and trimmed. -/
theorem C4_get_youtube_captions_never_raises :
    (∀ frags gen, get_youtube_captions (.ok frags) gen = joinStrip frags) ∧
    (∀ frags, get_youtube_captions .noTranscriptFound (.available frags) =
      joinStrip frags) ∧
    (get_youtube_captions .noTranscriptFound .unavailable = "") ∧
    (∀ msg, get_youtube_captions .noTranscriptFound (.err msg) = "") ∧
    (∀ gen, get_youtube_captions .transcriptsDisabled gen = "") ∧
    (∀ msg gen, get_youtube_captions (.otherError msg) gen = "") ∧
    joinStrip ["Hello", "world", " again "] = "Hello world  again" := by
  refine ⟨fun _ _ => rfl, fun _ => rfl, rfl, fun _ => rfl, fun _ => rfl,
    fun _ _ => rfl, by decide⟩

/-- Counterexample to claim C2: in development mode (`debug = true`),
when the primary temporary download succeeded and the secondary durable
`.mp3` copy failed, `download_audio` raises the fixed RuntimeError
instead of returning the temporary artifact path. -/
theorem C2_counterexample :
    download_audio true (.ok ()) (.error "disk full") "audio_x.webm" =
      .error audioFailMsg ∧
    download_audio true (.ok ()) (.error "disk full") "audio_x.webm" ≠
      .ok "audio_x.webm" :=
  ⟨rfl, fun h => Except.noConfusion h⟩

/-- Claim C2 as amended: in development mode a failure of the secondary
durable copy DOES fail `download_audio` (both downloads sit in one
`try`, whose handler raises the fixed AudioDownloadFailed message), even
when the primary temporary download succeeded; only outside development
mode, or when both downloads succeed, is the temporary path returned. -/
theorem C2_amended_secondary_failure_fails_download :
    (∀ e tmp, download_audio true (.ok ()) (.error e) tmp =
      .error audioFailMsg) ∧
    (∀ s tmp, download_audio false (.ok ()) s tmp = .ok tmp) ∧
    (∀ tmp, download_audio true (.ok ()) (.ok ()) tmp = .ok tmp) :=
  ⟨fun _ _ => rfl, fun _ _ => rfl, fun _ => rfl⟩

/-- Every branch of the cache-miss path sends exactly one prompt to the
generative service. -/
theorem generateOnMiss_sent (service : String → Except String GenResponse)
    (cache : ACache) (key c w : String) :
    (generateOnMiss service cache key c w).sent = [buildPrompt c w] := by
  simp only [generateOnMiss]
  repeat' split
  all_goals rfl

/-- The cache-miss path either errors leaving the cache unchanged, or
returns a non-empty article and stores it at `key`; either way the one
prompt was sent. -/
theorem generateOnMiss_shape (service : String → Except String GenResponse)
    (cache : ACache) (key c w : String) :
    (∃ msg, generateOnMiss service cache key c w =
      ⟨.error msg, cache, [buildPrompt c w]⟩) ∨
    (∃ out, out ≠ "" ∧ generateOnMiss service cache key c w =
      ⟨.ok out, cacheSet cache key out, [buildPrompt c w]⟩) := by
  simp only [generateOnMiss]
  split
  · exact Or.inl ⟨_, rfl⟩
  · split
    · exact Or.inl ⟨_, rfl⟩
    · split
      · exact Or.inl ⟨_, rfl⟩
      · split
        · exact Or.inl ⟨_, rfl⟩
        · split
          · exact Or.inl ⟨_, rfl⟩
          · next h => exact Or.inr ⟨_, h, rfl⟩

/-- On a cache miss, `generate_blog_from_transcription` is the miss
path. -/
theorem generate_miss_eq (service : String → Except String GenResponse)
    (cache : ACache) (c w : String)
    (h : cacheGet cache (blogKey c w) = none) :
    generate_blog_from_transcription service cache c w =
      generateOnMiss service cache (blogKey c w) c w := by
  simp only [generate_blog_from_transcription]
  rw [h]

/-- On a hit with a non-empty cached article, the call returns it with
no service traffic and an unchanged cache. -/
theorem generate_hit (service : String → Except String GenResponse)
    (cache : ACache) (c w s : String)
    (h : cacheGet cache (blogKey c w) = some s) (hs : s ≠ "") :
    generate_blog_from_transcription service cache c w = ⟨.ok s, cache, []⟩ := by
  simp only [generate_blog_from_transcription]
  rw [h]
  simp [hs]

/-- A successful call returns a non-empty article that the resulting
cache holds under the content key. -/
theorem generate_ok_cached (service : String → Except String GenResponse)
    (cache : ACache) (c w out : String)
    (h : (generate_blog_from_transcription service cache c w).outcome = .ok out) :
    out ≠ "" ∧
      cacheGet ((generate_blog_from_transcription service cache c w).cache)
        (blogKey c w) = some out := by
  rcases hc : cacheGet cache (blogKey c w) with _ | s
  · rw [generate_miss_eq service cache c w hc] at h ⊢
    rcases generateOnMiss_shape service cache (blogKey c w) c w with
      ⟨msg, hm⟩ | ⟨o, ho, hm⟩
    · rw [hm] at h
      exact absurd h (fun hh => Except.noConfusion hh)
    · rw [hm] at h ⊢
      have : o = out := by
        simpa using h
      subst this
      exact ⟨ho, cacheGet_cacheSet_same cache (blogKey c w) o⟩
  · by_cases hs : s = ""
    · have hmiss :
          generate_blog_from_transcription service cache c w =
            generateOnMiss service cache (blogKey c w) c w := by
        simp only [generate_blog_from_transcription]
        rw [hc]
        simp [hs]
      rw [hmiss] at h ⊢
      rcases generateOnMiss_shape service cache (blogKey c w) c w with
        ⟨msg, hm⟩ | ⟨o, ho, hm⟩
      · rw [hm] at h
        exact absurd h (fun hh => Except.noConfusion hh)
      · rw [hm] at h ⊢
        have : o = out := by
          simpa using h
        subst this
        exact ⟨ho, cacheGet_cacheSet_same cache (blogKey c w) o⟩
    · have hhit := generate_hit service cache c w s hc hs
      rw [hhit] at h ⊢
      have : s = out := by
        simpa using h
      subst this
      exact ⟨hs, hc⟩

/-- Claim C8: with the article uncached, two `generate_blog_from_transcription`
calls whose `(captions, whisper)` arguments have equal concatenations
make exactly one generative-service call between them — the first sends
the single prompt, the second is served from the cache entry keyed by
the SHA-256 hash of the concatenation — and both return the same
article. -/
theorem C8_generate_one_service_call_per_content :
    ∀ (service : String → Except String GenResponse) (cache : ACache)
      (c1 w1 c2 w2 out : String),
      c1 ++ w1 = c2 ++ w2 →
      cacheGet cache (blogKey c1 w1) = none →
      (generate_blog_from_transcription service cache c1 w1).outcome = .ok out →
      (generate_blog_from_transcription service cache c1 w1).sent =
        [buildPrompt c1 w1] ∧
      generate_blog_from_transcription service
          ((generate_blog_from_transcription service cache c1 w1).cache) c2 w2 =
        ⟨.ok out, (generate_blog_from_transcription service cache c1 w1).cache,
          []⟩ := by
  intro service cache c1 w1 c2 w2 out hcat hmiss hok
  have hkey : blogKey c2 w2 = blogKey c1 w1 := by
    unfold blogKey
    rw [hcat]
  have h1 := generate_ok_cached service cache c1 w1 out hok
  refine ⟨?_, ?_⟩
  · rw [generate_miss_eq service cache c1 w1 hmiss]
    exact generateOnMiss_sent service cache (blogKey c1 w1) c1 w1
  · exact generate_hit service _ c2 w2 out (by rw [hkey]; exact h1.2) h1.1

/-- Concrete generative service used by witnesses: one candidate, one
part, fixed text. -/
def okService : String → Except String GenResponse :=
  fun _ => .ok ⟨[⟨some ⟨[⟨some "An article."⟩]⟩⟩]⟩

/-- Witness for C8 at concrete inputs with the hypotheses discharged. -/
theorem C8_witness :
    ("abc" : String) ++ "" = "ab" ++ "c" ∧
    cacheGet ([] : ACache) (blogKey "abc" "") = none ∧
    (generate_blog_from_transcription okService [] "abc" "").outcome =
      .ok "An article." ∧
    (generate_blog_from_transcription okService [] "abc" "").sent =
      [buildPrompt "abc" ""] ∧
    generate_blog_from_transcription okService
        ((generate_blog_from_transcription okService [] "abc" "").cache) "ab" "c" =
      ⟨.ok "An article.",
        (generate_blog_from_transcription okService [] "abc" "").cache, []⟩ := by
  have h := C8_generate_one_service_call_per_content okService [] "abc" "" "ab"
    "c" "An article." (by decide) rfl rfl
  exact ⟨by decide, rfl, rfl, h.1, h.2⟩

/-- Claim C9: `generate_blog_from_transcription` fails — with the wrapped
GenerationFailed message — whenever the service response has zero
candidates, a first candidate with no content, no content parts, or
text segments that join and strip to the empty string; and a successful
call never returns an empty article. -/
theorem C9_generation_failed_never_empty :
    (∀ (service : String → Except String GenResponse) (cache : ACache)
      (c w out : String),
      (generate_blog_from_transcription service cache c w).outcome = .ok out →
      out ≠ "") ∧
    (∀ (service : String → Except String GenResponse) (cache : ACache)
      (c w : String) (resp : GenResponse),
      cacheGet cache (blogKey c w) = none →
      service (buildPrompt c w) = .ok resp →
      (resp.candidates = [] →
        (generate_blog_from_transcription service cache c w).outcome =
          .error "Gemini API request failed: Gemini API returned no valid content") ∧
      (∀ cand rest, resp.candidates = cand :: rest → cand.content = none →
        (generate_blog_from_transcription service cache c w).outcome =
          .error "Gemini API request failed: Gemini API returned no valid content") ∧
      (∀ cand rest cont, resp.candidates = cand :: rest →
        cand.content = some cont → cont.parts = [] →
        (generate_blog_from_transcription service cache c w).outcome =
          .error "Gemini API request failed: Gemini API returned empty parts") ∧
      (∀ cand rest cont p ps, resp.candidates = cand :: rest →
        cand.content = some cont → cont.parts = p :: ps →
        pyStrip (String.join ((p :: ps).map (fun q => q.text.getD ""))) = "" →
        (generate_blog_from_transcription service cache c w).outcome =
          .error "Gemini API request failed: Gemini API returned empty blog content")) := by
  constructor
  · intro service cache c w out h
    exact (generate_ok_cached service cache c w out h).1
  · intro service cache c w resp hmiss hsvc
    rw [generate_miss_eq service cache c w hmiss]
    simp only [generateOnMiss, hsvc]
    refine ⟨?_, ?_, ?_, ?_⟩
    · intro hcand
      simp only [hcand]
    · intro cand rest hcand hcontent
      simp only [hcand, hcontent]
    · intro cand rest cont hcand hcontent hparts
      simp only [hcand, hcontent, hparts]
    · intro cand rest cont p ps hcand hcontent hparts hempty
      simp only [hcand, hcontent, hparts]
      rw [if_pos hempty]

/-- Witness for C9 at concrete inputs with the hypotheses discharged. -/
theorem C9_witness :
    cacheGet ([] : ACache) (blogKey "t" "") = none ∧
    (generate_blog_from_transcription
        (fun _ => .ok ⟨[]⟩) [] "t" "").outcome =
      .error "Gemini API request failed: Gemini API returned no valid content" :=
  ⟨rfl,
    (C9_generation_failed_never_empty.2 (fun _ => .ok ⟨[]⟩) [] "t" "" ⟨[]⟩ rfl
      rfl).1 rfl⟩

/-- Claim C10: any two splits with equal concatenation share the
SHA-256-of-concatenation cache key, so after one split succeeds the
other split is served that cached article with no generative-service
call — even though a cache-miss computation would distinguish the
splits, since the prompt embeds the two texts separately (substituting
the literal `[EMPTY]` for an empty field), as the `("abc", "")` versus
`("", "abc")` prompts show. -/
theorem C10_equal_concatenation_shares_key :
    (∀ (service : String → Except String GenResponse) (cache : ACache)
      (c1 w1 c2 w2 out : String),
      c1 ++ w1 = c2 ++ w2 →
      (generate_blog_from_transcription service cache c1 w1).outcome = .ok out →
      blogKey c2 w2 = blogKey c1 w1 ∧
      generate_blog_from_transcription service
          ((generate_blog_from_transcription service cache c1 w1).cache) c2 w2 =
        ⟨.ok out,
          (generate_blog_from_transcription service cache c1 w1).cache, []⟩) ∧
    buildPrompt "abc" "" ≠ buildPrompt "" "abc" := by
  constructor
  · intro service cache c1 w1 c2 w2 out hcat hok
    have hkey : blogKey c2 w2 = blogKey c1 w1 := by
      unfold blogKey
      rw [hcat]
    have h1 := generate_ok_cached service cache c1 w1 out hok
    exact ⟨hkey, generate_hit service _ c2 w2 out (by rw [hkey]; exact h1.2) h1.1⟩
  · decide

/-- Witness for C10 at concrete inputs with the hypotheses discharged. -/
theorem C10_witness :
    ("abc" : String) ++ "" = "" ++ "abc" ∧
    (generate_blog_from_transcription okService [] "abc" "").outcome =
      .ok "An article." ∧
    blogKey "" "abc" = blogKey "abc" "" ∧
    generate_blog_from_transcription okService
        ((generate_blog_from_transcription okService [] "abc" "").cache) "" "abc" =
      ⟨.ok "An article.",
        (generate_blog_from_transcription okService [] "abc" "").cache, []⟩ := by
  have h := C10_equal_concatenation_shares_key.1 okService [] "abc" "" "" "abc"
    "An article." (by decide) rfl
  exact ⟨by decide, rfl, h.1, h.2⟩

/-- Claim C7: with a valid identifier and an unexpired transcript-cache
entry for `transcriptions:{identifier}:{language}`, `get_transcriptions`
returns the cached pair immediately — cache, filesystem and all three
collaborators untouched. -/
theorem C7_transcript_cache_hit_short_circuits :
    ∀ (env : PipelineEnv) (cache : TCache) (fs : List String)
      (url lang vid : String) (pair : String × String),
      extract_video_id url = some vid → vid ≠ "" →
      cacheGet cache ("transcriptions:" ++ vid ++ ":" ++ lang) = some pair →
      get_transcriptions env cache fs url lang = ⟨.ok pair, cache, fs, noEffects⟩ := by
  intro env cache fs url lang vid pair hx hv hc
  simp only [get_transcriptions, hx]
  rw [if_neg hv]
  simp only [hc]

/-- Witness for C7 at concrete inputs with the hypotheses discharged. -/
theorem C7_witness :
    extract_video_id "https://youtu.be/abc123" = some "abc123" ∧
    ("abc123" : String) ≠ "" ∧
    cacheGet [("transcriptions:abc123:en", ("caps", "whisp"))]
      ("transcriptions:" ++ "abc123" ++ ":" ++ "en") = some ("caps", "whisp") ∧
    get_transcriptions
        ⟨.ok ["x"], .unavailable, false, .ok (), .ok (), "audio_7.webm", .ok "y"⟩
        [("transcriptions:abc123:en", ("caps", "whisp"))] ["old.webm"]
        "https://youtu.be/abc123" "en" =
      ⟨.ok ("caps", "whisp"), [("transcriptions:abc123:en", ("caps", "whisp"))],
        ["old.webm"], noEffects⟩ :=
  ⟨by decide, by decide, by decide,
    C7_transcript_cache_hit_short_circuits
      ⟨.ok ["x"], .unavailable, false, .ok (), .ok (), "audio_7.webm", .ok "y"⟩
      [("transcriptions:abc123:en", ("caps", "whisp"))] ["old.webm"]
      "https://youtu.be/abc123" "en" "abc123" ("caps", "whisp") (by decide)
      (by decide) (by decide)⟩

/-- Claim C5: when both the caption text and the stripped Whisper text
are empty, `get_transcriptions` fails with the wrapped PipelineFailure
message and writes nothing to the cache; and any pair found in the cache
after a call was either already there or has a non-empty component. -/
theorem C5_both_empty_fails_and_never_cached :
    (∀ (env : PipelineEnv) (cache : TCache) (fs : List String)
      (url lang vid w : String),
      extract_video_id url = some vid → vid ≠ "" →
      cacheGet cache ("transcriptions:" ++ vid ++ ":" ++ lang) = none →
      download_audio env.debug env.primaryDl env.secondaryDl env.tmpName =
        .ok env.tmpName →
      env.whisperRaw = .ok w →
      get_youtube_captions env.api env.gen = "" → pyStrip w = "" →
      (get_transcriptions env cache fs url lang).outcome =
        .error "Fetching transcriptions failed: Both captions and Whisper failed" ∧
      (get_transcriptions env cache fs url lang).cache = cache) ∧
    (∀ (env : PipelineEnv) (cache : TCache) (fs : List String)
      (url lang k : String) (p : String × String),
      (k, p) ∈ (get_transcriptions env cache fs url lang).cache →
      (k, p) ∈ cache ∨ ¬(p.1 = "" ∧ p.2 = "")) := by
  constructor
  · intro env cache fs url lang vid w hx hv hc hdl hw hcap hstrip
    simp only [get_transcriptions, hx]
    rw [if_neg hv]
    simp only [hc, hdl, hw, transcribe_whisper, hcap]
    rw [if_pos ⟨trivial, hstrip⟩]
    exact ⟨rfl, rfl⟩
  · intro env cache fs url lang k p h
    simp only [get_transcriptions] at h
    cases hx : extract_video_id url with
    | none =>
      simp only [hx] at h
      exact Or.inl h
    | some vid =>
      simp only [hx] at h
      by_cases hv : vid = ""
      · rw [if_pos hv] at h
        exact Or.inl h
      · rw [if_neg hv] at h
        cases hc : cacheGet cache ("transcriptions:" ++ vid ++ ":" ++ lang) with
        | some pair =>
          simp only [hc] at h
          exact Or.inl h
        | none =>
          simp only [hc] at h
          cases hdl : download_audio env.debug env.primaryDl env.secondaryDl
              env.tmpName with
          | error e =>
            simp only [hdl] at h
            exact Or.inl h
          | ok audio_file =>
            simp only [hdl] at h
            cases hwr : transcribe_whisper env.whisperRaw with
            | error e =>
              simp only [hwr] at h
              exact Or.inl h
            | ok w =>
              simp only [hwr] at h
              by_cases hbe : get_youtube_captions env.api env.gen = "" ∧ w = ""
              · rw [if_pos hbe] at h
                exact Or.inl h
              · rw [if_neg hbe] at h
                rcases cacheSet_mem cache _ _ _ h with heq | hmem
                · right
                  intro hp
                  apply hbe
                  have hps : p = (get_youtube_captions env.api env.gen, w) :=
                    congrArg Prod.snd heq
                  rw [hps] at hp
                  exact hp
                · exact Or.inl hmem

/-- Witness for C5 at concrete inputs with the hypotheses discharged. -/
theorem C5_witness :
    extract_video_id "https://youtu.be/abc123" = some "abc123" ∧
    cacheGet ([] : TCache) ("transcriptions:" ++ "abc123" ++ ":" ++ "en") =
      none ∧
    get_youtube_captions .transcriptsDisabled .unavailable = "" ∧
    pyStrip "   " = "" ∧
    (get_transcriptions
        ⟨.transcriptsDisabled, .unavailable, false, .ok (), .ok (),
          "audio_5.webm", .ok "   "⟩ [] [] "https://youtu.be/abc123" "en").outcome =
      .error "Fetching transcriptions failed: Both captions and Whisper failed" ∧
    (get_transcriptions
        ⟨.transcriptsDisabled, .unavailable, false, .ok (), .ok (),
          "audio_5.webm", .ok "   "⟩ [] [] "https://youtu.be/abc123" "en").cache =
      ([] : TCache) := by
  have h := C5_both_empty_fails_and_never_cached.1
    ⟨.transcriptsDisabled, .unavailable, false, .ok (), .ok (), "audio_5.webm",
      .ok "   "⟩ [] [] "https://youtu.be/abc123" "en" "abc123" "   " (by decide)
    (by decide) rfl rfl rfl rfl (by decide)
  exact ⟨by decide, rfl, rfl, by decide, h.1, h.2⟩

/-- Counterexample to claim C1: a concrete pipeline invocation whose
`transcribe_whisper` step fails returns with the temporary audio
artifact still on the filesystem — the cleanup on lines 290-294 of
views.py is skipped when line 287 raises, as there is no try/finally. -/
theorem C1_counterexample :
    (get_transcriptions
        ⟨.ok ["hi"], .unavailable, false, .ok (), .ok (), "audio_1.webm",
          .error "whisper exploded"⟩ [] [] "https://youtu.be/abc123" "en").outcome =
      .error
        "Fetching transcriptions failed: Whisper transcription failed: whisper exploded" ∧
    (get_transcriptions
        ⟨.ok ["hi"], .unavailable, false, .ok (), .ok (), "audio_1.webm",
          .error "whisper exploded"⟩ [] [] "https://youtu.be/abc123" "en").fs =
      ["audio_1.webm"] :=
  ⟨rfl, rfl⟩

/-- Claim C1 as amended: the temporary artifact is deleted before the
call returns whenever `transcribe_whisper` returns (even when the
pipeline then fails because both texts are empty); but when
`transcribe_whisper` fails, the error propagates before the cleanup
runs, and the artifact acquired by the successful download remains on
the filesystem. -/
theorem C1_amended_cleanup_only_after_transcription_returns :
    (∀ (env : PipelineEnv) (cache : TCache) (fs : List String)
      (url lang vid w : String),
      extract_video_id url = some vid → vid ≠ "" →
      cacheGet cache ("transcriptions:" ++ vid ++ ":" ++ lang) = none →
      env.primaryDl = .ok () →
      download_audio env.debug env.primaryDl env.secondaryDl env.tmpName =
        .ok env.tmpName →
      env.whisperRaw = .ok w → env.tmpName ≠ "" →
      env.tmpName ∉ (get_transcriptions env cache fs url lang).fs) ∧
    (∀ (env : PipelineEnv) (cache : TCache) (fs : List String)
      (url lang vid e : String),
      extract_video_id url = some vid → vid ≠ "" →
      cacheGet cache ("transcriptions:" ++ vid ++ ":" ++ lang) = none →
      env.primaryDl = .ok () →
      download_audio env.debug env.primaryDl env.secondaryDl env.tmpName =
        .ok env.tmpName →
      env.whisperRaw = .error e →
      env.tmpName ∈ (get_transcriptions env cache fs url lang).fs ∧
      (get_transcriptions env cache fs url lang).outcome =
        .error ("Fetching transcriptions failed: Whisper transcription failed: "
          ++ e)) := by
  constructor
  · intro env cache fs url lang vid w hx hv hc hprim hdl hw htmp
    simp only [get_transcriptions, hx]
    rw [if_neg hv]
    simp only [hc, hdl, hw, transcribe_whisper]
    simp only [hprim]
    rw [apply_ite PipelineResult.fs]
    simp only []
    rw [ite_self]
    rw [if_pos ⟨htmp, mem_fsAdd_self fs env.tmpName⟩]
    exact not_mem_filter_ne_self (fsAdd fs env.tmpName) env.tmpName
  · intro env cache fs url lang vid e hx hv hc hprim hdl hw
    simp only [get_transcriptions, hx]
    rw [if_neg hv]
    simp only [hc, hdl, hw, transcribe_whisper]
    simp only [hprim]
    exact ⟨mem_fsAdd_self fs env.tmpName, rfl⟩

/-- Witness for C1's amended theorem at concrete inputs with the
hypotheses discharged. -/
theorem C1_amended_witness :
    extract_video_id "https://youtu.be/abc123" = some "abc123" ∧
    cacheGet ([] : TCache) ("transcriptions:" ++ "abc123" ++ ":" ++ "en") =
      none ∧
    download_audio false (.ok ()) (.ok ()) "audio_2.webm" = .ok "audio_2.webm" ∧
    ("audio_2.webm" : String) ∉
      (get_transcriptions
        ⟨.ok ["hi"], .unavailable, false, .ok (), .ok (), "audio_2.webm",
          .ok "hello"⟩ [] [] "https://youtu.be/abc123" "en").fs := by
  refine ⟨by decide, rfl, rfl, ?_⟩
  exact C1_amended_cleanup_only_after_transcription_returns.1
    ⟨.ok ["hi"], .unavailable, false, .ok (), .ok (), "audio_2.webm", .ok "hello"⟩
    [] [] "https://youtu.be/abc123" "en" "abc123" "hello" (by decide) (by decide)
    rfl rfl rfl rfl (by decide)

/-- Counterexample to claim C3: a concrete invocation in which caption
fetching hits an unexpected error (`otherError`) does not fail the
pipeline — `get_youtube_captions` swallows the error into `""` and the
call succeeds with the Whisper text alone. -/
theorem C3_counterexample :
    get_youtube_captions (.otherError "boom") .unavailable = "" ∧
    get_transcriptions
        ⟨.otherError "boom", .unavailable, false, .ok (), .ok (), "audio_3.webm",
          .ok " hello world "⟩ [] [] "https://youtu.be/abc123" "en" =
      ⟨.ok ("", "hello world"),
        [("transcriptions:abc123:en", ("", "hello world"))], [],
        ⟨true, true, true⟩⟩ :=
  ⟨rfl, rfl⟩

/-- Claim C3 as amended: an unexpected caption-fetch error is swallowed,
not propagated — `get_youtube_captions` returns `""` (views.py lines
239-241), and the pipeline call proceeds and succeeds on the Whisper
text alone instead of failing. -/
theorem C3_amended_unexpected_caption_error_swallowed :
    (∀ msg gen, get_youtube_captions (.otherError msg) gen = "") ∧
    (∀ (env : PipelineEnv) (cache : TCache) (fs : List String)
      (url lang vid msg w : String),
      env.api = .otherError msg →
      extract_video_id url = some vid → vid ≠ "" →
      cacheGet cache ("transcriptions:" ++ vid ++ ":" ++ lang) = none →
      download_audio env.debug env.primaryDl env.secondaryDl env.tmpName =
        .ok env.tmpName →
      env.whisperRaw = .ok w → pyStrip w ≠ "" →
      (get_transcriptions env cache fs url lang).outcome =
        .ok ("", pyStrip w)) := by
  constructor
  · intro msg gen
    rfl
  · intro env cache fs url lang vid msg w hapi hx hv hc hdl hw hstrip
    simp only [get_transcriptions, hx]
    rw [if_neg hv]
    simp only [hc, hdl, hw, transcribe_whisper, hapi]
    rw [if_neg (fun hh => hstrip hh.2)]
    rfl

/-- Witness for C3's amended theorem at concrete inputs with the
hypotheses discharged. -/
theorem C3_amended_witness :
    extract_video_id "https://youtu.be/abc123" = some "abc123" ∧
    pyStrip "ok text" ≠ "" ∧
    (get_transcriptions
        ⟨.otherError "kaboom", .unavailable, false, .ok (), .ok (),
          "audio_4.webm", .ok "ok text"⟩ [] [] "https://youtu.be/abc123"
        "en").outcome =
      .ok ("", pyStrip "ok text") := by
  refine ⟨by decide, by decide, ?_⟩
  exact C3_amended_unexpected_caption_error_swallowed.2
    ⟨.otherError "kaboom", .unavailable, false, .ok (), .ok (), "audio_4.webm",
      .ok "ok text"⟩ [] [] "https://youtu.be/abc123" "en" "abc123" "kaboom"
    "ok text" rfl (by decide) (by decide) rfl rfl rfl (by decide)

end BlogGen
